import Mathlib

/-!
# YearCal life-calendar server: a shallow embedding of `src/server.js`

This file embeds the data model and the operations of the YearCal server
(`src/server.js`) in Lean and proves properties of them:

* the theme table `THEMES` and the lookup `THEMES[name] || THEMES.dark`
  (lines 36-53 and 107), including the behaviour of a JavaScript property
  read on an object literal, which also consults `Object.prototype`;
* the input validator `validateInput` (lines 58-91);
* the week calculator `calculateWeeksLived` (lines 96-101), with ISO date
  strings parsed the way `new Date("YYYY-MM-DD")` parses them (UTC midnight,
  rejecting out-of-range month/day);
* the grid geometry and the dot-drawing loop of `generateCalendarImage`
  (lines 119-148 and 203-225);
* the request handler `POST /api/generate-calendar` (lines 436-473).

All date arithmetic in the source happens on exact integers: the epoch
milliseconds of any 4-digit-year date are below 2^53, so JavaScript number
arithmetic on them is exact, and `Math.floor` of the quotient of two such
exact values agrees with mathematical floor division.  Integer values are
therefore modelled as `ℤ`, and the pixel geometry (integers and halves of
integers, all exact in binary floating point) as `ℚ`.
-/

namespace YearCal

/-- A JSON primitive value, as delivered by the `express.json()` body parser
for a scalar field.  JSON numbers are finite, so `ℚ` carries them without
loss for the magnitudes this server manipulates. -/
inductive JsPrim where
  | num (q : ℚ)
  | str (s : String)
  | bool (b : Bool)
  | null
  deriving DecidableEq, Repr

/-- JavaScript truthiness of a `JsPrim`: `0`, `""`, `false` and `null` are
falsy, everything else is truthy. -/
def JsPrim.truthy : JsPrim → Bool
  | .num q => decide (q ≠ 0)
  | .str s => decide (s ≠ "")
  | .bool b => b
  | .null => false

/-- `typeof v === 'number'`. -/
def JsPrim.isNumber : JsPrim → Bool
  | .num _ => true
  | _ => false

/-- `x || d` on an optional field: the default is taken when the field is
absent (`undefined`) or falsy. -/
def jsOr (v : Option JsPrim) (d : JsPrim) : JsPrim :=
  match v with
  | some w => if w.truthy then w else d
  | none => d

/-- One theme palette (`src/server.js` lines 37-52). -/
structure ThemeSpec where
  background : String
  lived : String
  future : String
  curNow : String
  text : String
  textSecondary : String
  deriving DecidableEq, Repr

/-- `THEMES.dark` (lines 37-44). -/
def darkTheme : ThemeSpec :=
  { background := "#000000", lived := "#FFFFFF", future := "#333333",
    curNow := "#FF0000", text := "#FFFFFF", textSecondary := "#888888" }

/-- `THEMES.light` (lines 45-52). -/
def lightTheme : ThemeSpec :=
  { background := "#FFFFFF", lived := "#000000", future := "#CCCCCC",
    curNow := "#00A8FF", text := "#000000", textSecondary := "#666666" }

/-- Result of the JavaScript property read `THEMES[name]`.  Besides the two
own properties `dark` and `light`, a bracket read on an object literal also
finds the properties inherited from `Object.prototype` (`"constructor"`,
`"toString"`, ...); their values are functions or objects, hence truthy, and
are not theme palettes. -/
inductive ThemeLookup where
  | found (t : ThemeSpec)
  | inherited (propName : String)
  | absent
  deriving DecidableEq, Repr

/-- The property names an object literal inherits from `Object.prototype`
in Node's default environment. -/
def objectProtoProps : List String :=
  ["constructor", "hasOwnProperty", "isPrototypeOf", "propertyIsEnumerable",
   "toLocaleString", "toString", "valueOf", "__defineGetter__",
   "__defineSetter__", "__lookupGetter__", "__lookupSetter__", "__proto__"]

/-- The property read `THEMES[name]` (used at lines 77 and 107). -/
def themesGet (name : String) : ThemeLookup :=
  if name = "dark" then .found darkTheme
  else if name = "light" then .found lightTheme
  else if name ∈ objectProtoProps then .inherited name
  else .absent

/-- `THEMES[themeName] || THEMES.dark` (line 107): `undefined` is falsy and
falls back to the dark palette; a found palette or an inherited
`Object.prototype` member is truthy and is kept. -/
def resolveTheme (name : String) : ThemeLookup :=
  match themesGet name with
  | .absent => .found darkTheme
  | r => r

/-! ## Calendar dates

`new Date("YYYY-MM-DD")` parses a digits-only ISO date as midnight UTC of
that civil date and yields an Invalid Date when the month or day is out of
range.  A date's time value is `epochDay * msPerDay` where `epochDay` is the
number of days since 1970-01-01.  Day numbering follows the proleptic
Gregorian calendar (Howard Hinnant's `days_from_civil` algorithm). -/

def msPerDay : ℤ := 86400000

def msPerWeek : ℤ := 7 * msPerDay

def isLeapYear (y : ℤ) : Bool :=
  y % 4 = 0 && (y % 100 ≠ 0 || y % 400 = 0)

def daysInMonth (y m : ℤ) : ℤ :=
  if m = 2 then (if isLeapYear y then 29 else 28)
  else if m = 4 ∨ m = 6 ∨ m = 9 ∨ m = 11 then 30
  else 31

/-- Days since 1970-01-01 of the civil date `y-m-d` (proleptic Gregorian). -/
def daysFromCivil (y m d : ℤ) : ℤ :=
  let yAdj := if m ≤ 2 then y - 1 else y
  let era := Int.fdiv yAdj 400
  let yoe := yAdj - era * 400
  let mp := (m + 9) % 12
  let doy := Int.ediv (153 * mp + 2) 5 + d - 1
  let doe := yoe * 365 + Int.ediv yoe 4 - Int.ediv yoe 100 + doy
  era * 146097 + doe - 719468

/-- Civil date `(y, m, d)` of a day number (inverse of `daysFromCivil`). -/
def civilFromDays (z : ℤ) : ℤ × ℤ × ℤ :=
  let z' := z + 719468
  let era := Int.fdiv z' 146097
  let doe := z' - era * 146097
  let yoe := Int.ediv (doe - Int.ediv doe 1460 + Int.ediv doe 36524
    - Int.ediv doe 146096) 365
  let y := yoe + era * 400
  let doy := doe - (365 * yoe + Int.ediv yoe 4 - Int.ediv yoe 100)
  let mp := Int.ediv (5 * doy + 2) 153
  let d := doy - Int.ediv (153 * mp + 2) 5 + 1
  let m := if mp < 10 then mp + 3 else mp - 9
  (if m ≤ 2 then y + 1 else y, m, d)

def digitVal (c : Char) : Option ℕ :=
  if c.isDigit then some (c.toNat - 48) else none

def digitsVal (cs : List Char) : Option ℕ :=
  cs.foldl (fun acc c => match acc, digitVal c with
    | some n, some v => some (10 * n + v)
    | _, _ => none) (some 0)

/-- The shape test `/^\d\x7b4\x7d-\d\x7b2\x7d-\d\x7b2\x7d$/.test(s)`
(line 63), returning the three digit groups on success. -/
def parseIsoShape (s : String) : Option (ℤ × ℤ × ℤ) :=
  match s.data with
  | [y1, y2, y3, y4, h1, m1, m2, h2, d1, d2] =>
    if h1 = '-' ∧ h2 = '-' then
      match digitsVal [y1, y2, y3, y4], digitsVal [m1, m2], digitsVal [d1, d2] with
      | some y, some m, some d => some ((y : ℤ), (m : ℤ), (d : ℤ))
      | _, _, _ => none
    else none
  | _ => none

/-- The epoch day of `new Date(s)` for a digits-only ISO date string, or
`none` for an Invalid Date.  Strings not of the `YYYY-MM-DD` shape are
treated as Invalid Dates here; the engine-specific fallback parser that
real JavaScript applies to them is not modelled (every validator path first
rejects such strings on the shape test, so only the guarded future-date
check at lines 82-88 could observe the difference, and there only by adding
a redundant message to an already non-empty error list). -/
def jsParseDate (s : String) : Option ℤ :=
  match parseIsoShape s with
  | some (y, m, d) =>
    if 1 ≤ m ∧ m ≤ 12 ∧ 1 ≤ d ∧ d ≤ daysInMonth y m then
      some (daysFromCivil y m d)
    else none
  | none => none

/-- `calculateWeeksLived` (lines 96-101): parse both dates, subtract the
time values in milliseconds and floor-divide by a week of milliseconds.
`Math.floor` on the exact quotient is floor division, hence `Int.fdiv`.
When either date is invalid the subtraction yields `NaN` and the result is
`NaN`, modelled as `none`. -/
def calculateWeeksLived (birthDate currentDate : String) : Option ℤ :=
  match jsParseDate birthDate, jsParseDate currentDate with
  | some b, some c => some (Int.fdiv (c * msPerDay - b * msPerDay) msPerWeek)
  | _, _ => none

/-! ## Input validation and the request handler -/

/-- The JSON request body, with the fields the server reads (`birthDate`,
`lifeExpectancy`, `theme`) and two fields it never reads (`referenceDate`,
`currentDate`), carried to state that the handler ignores them.  `none`
models an absent field (`undefined`).  `birthDate` and `theme` are modelled
as JSON strings when present. -/
structure RequestBody where
  birthDate : Option String
  lifeExpectancy : Option JsPrim
  theme : Option String
  referenceDate : Option String
  currentDate : Option String
  deriving DecidableEq, Repr

/-- Lines 61-70: required / shape / calendar-validity checks on `birthDate`.
`!body.birthDate` is true for an absent field and for the falsy empty
string. -/
def birthDateErrors (body : RequestBody) : List String :=
  match body.birthDate with
  | none => ["birthDate is required (format: YYYY-MM-DD)"]
  | some s =>
    if s = "" then ["birthDate is required (format: YYYY-MM-DD)"]
    else if (parseIsoShape s).isNone then ["birthDate must be in YYYY-MM-DD format"]
    else if (jsParseDate s).isNone then ["birthDate is not a valid date"]
    else []

/-- Lines 72-75: `const lifeExpectancy = body.lifeExpectancy || 80`, then a
type and range check on the defaulted value. -/
def lifeExpectancyErrors (body : RequestBody) : List String :=
  match jsOr body.lifeExpectancy (.num 80) with
  | .num q =>
    if q < 1 ∨ 150 < q then ["lifeExpectancy must be a number between 1 and 150"]
    else []
  | _ => ["lifeExpectancy must be a number between 1 and 150"]

/-- Lines 77-79: `if (body.theme && !THEMES[body.theme])`. -/
def themeErrors (body : RequestBody) : List String :=
  match body.theme with
  | some s =>
    if s ≠ "" ∧ themesGet s = .absent then ["theme must be either \"dark\" or \"light\""]
    else []
  | none => []

/-- Lines 82-88: `new Date(body.birthDate) > new Date()`.  The comparison is
false when the parsed date is invalid (`NaN`); the midnight time value of a
valid date exceeds the current instant `nowMs` exactly when
`nowMs < day * msPerDay`. -/
def futureErrors (body : RequestBody) (nowMs : ℤ) : List String :=
  match body.birthDate with
  | some s =>
    if s ≠ "" then
      match jsParseDate s with
      | some d => if nowMs < d * msPerDay then ["birthDate cannot be in the future"] else []
      | none => []
    else []
  | none => []

/-- `validateInput` (lines 58-91): the four error groups accumulated in
source order.  `nowMs` is the epoch-millisecond instant of the `new Date()`
call at line 84. -/
def validateInput (body : RequestBody) (nowMs : ℤ) : List String :=
  birthDateErrors body ++ lifeExpectancyErrors body ++ themeErrors body
    ++ futureErrors body nowMs

def padZeros (k : ℕ) (n : ℕ) : String :=
  let s := toString n
  String.mk (List.replicate (k - s.length) '0') ++ s

/-- `new Date(nowMs).toISOString().split('T')[0]` (line 452): the UTC civil
date of the instant, printed as `YYYY-MM-DD`. -/
def isoDateOfMs (nowMs : ℤ) : String :=
  match civilFromDays (Int.fdiv nowMs msPerDay) with
  | (y, m, d) => padZeros 4 y.toNat ++ "-" ++ padZeros 2 m.toNat ++ "-" ++ padZeros 2 d.toNat

/-- The argument tuple the handler passes to `generateCalendarImage`
(line 457). -/
structure RenderCall where
  birthDate : Option String
  currentDate : String
  lifeExpectancy : JsPrim
  themeName : String
  deriving DecidableEq, Repr

/-- The `POST /api/generate-calendar` handler (lines 436-473): validate,
reject with the error list on failure, otherwise destructure the body —
the defaults `lifeExpectancy = 80` and `theme = 'dark'` apply only to an
absent (`undefined`) field — compute today's date string and call the
renderer.  The two `new Date()` calls of one request (validator line 84,
handler line 451) are modelled as the single instant `nowMs`. -/
def handleGenerateCalendar (body : RequestBody) (nowMs : ℤ) :
    Except (List String) RenderCall :=
  if validateInput body nowMs = [] then
    .ok { birthDate := body.birthDate,
          currentDate := isoDateOfMs nowMs,
          lifeExpectancy := body.lifeExpectancy.getD (.num 80),
          themeName := body.theme.getD "dark" }
  else
    .error (validateInput body nowMs)

/-! ## Grid geometry (`generateCalendarImage`, lines 119-148)

All the quantities below are integers or halves of integers, exact in
JavaScript's binary floating point, so `ℚ` models the arithmetic
faithfully. -/

def CANVAS_WIDTH : ℚ := 1170
def CANVAS_HEIGHT : ℚ := 2532
def weeksPerYear : ℕ := 52
def headerHeight : ℚ := 300
def safeAreaTop : ℚ := 250
def marginBottom : ℚ := 100
def marginLeft : ℚ := 80
def marginRight : ℚ := 50
def yearLabelWidth : ℚ := 40

/-- Line 134. -/
def availableWidth : ℚ := CANVAS_WIDTH - marginLeft - marginRight - yearLabelWidth

/-- Line 135. -/
def availableHeight : ℚ := CANVAS_HEIGHT - headerHeight - safeAreaTop - marginBottom

def dotDiameter : ℚ := 8
def spacing : ℚ := 3

/-- Line 140. -/
def cellSize : ℚ := dotDiameter + spacing

/-- Line 143. -/
def gridWidth : ℚ := (weeksPerYear : ℚ) * cellSize

/-- Line 144. -/
def gridHeight (totalYears : ℚ) : ℚ := totalYears * cellSize

/-- Line 147. -/
def startX : ℚ := marginLeft + yearLabelWidth + (availableWidth - gridWidth) / 2

/-- Line 148. -/
def startY (totalYears : ℚ) : ℚ :=
  safeAreaTop + headerHeight + (availableHeight - gridHeight totalYears) / 2

/-- The horizontal centre of the available drawing band, from its edges:
the band runs from `marginLeft + yearLabelWidth` to
`CANVAS_WIDTH - marginRight` (its width is `availableWidth`). -/
def availableRectCenterX : ℚ :=
  ((marginLeft + yearLabelWidth) + (CANVAS_WIDTH - marginRight)) / 2

/-- The vertical centre of the available drawing band, which runs from
`safeAreaTop + headerHeight` to `CANVAS_HEIGHT - marginBottom`. -/
def availableRectCenterY : ℚ :=
  ((safeAreaTop + headerHeight) + (CANVAS_HEIGHT - marginBottom)) / 2

/-! ## The dot grid (`generateCalendarImage`, lines 203-225) -/

/-- The classification the colour choice at lines 209-217 makes of a cell,
named as in the specification. -/
inductive CellState where
  | lived
  | curNow
  | future
  deriving DecidableEq, Repr

/-- The state of grid index `weekIndex` given the computed `weeksLived`,
following the comparison chain at lines 211-217 (`===`, then `<`, else
future). -/
def cellStateOf (weekIndex : ℕ) (weeksLived : ℤ) : CellState :=
  if (weekIndex : ℤ) = weeksLived then .curNow
  else if (weekIndex : ℤ) < weeksLived then .lived
  else .future

/-- The palette colour of a `CellState`. -/
def stateColor (theme : ThemeSpec) : CellState → String
  | .lived => theme.lived
  | .curNow => theme.curNow
  | .future => theme.future

/-- The colour assigned at lines 209-217.  `weeksLived` is `none` when
`calculateWeeksLived` produced `NaN`; both `NaN` comparisons are false,
so such a cell is painted as future. -/
def dotColor (theme : ThemeSpec) (weekIndex : ℕ) (weeksLived : Option ℤ) : String :=
  match weeksLived with
  | some e =>
    if (weekIndex : ℤ) = e then theme.curNow
    else if (weekIndex : ℤ) < e then theme.lived
    else theme.future
  | none => theme.future

/-- One painted dot: the centre handed to `ctx.arc` and the fill colour. -/
structure Dot where
  x : ℚ
  y : ℚ
  color : String
  deriving DecidableEq, Repr

/-- The nested loop at lines 203-225, emitting the dots in drawing order:
for each `year` below `totalYears` and each `week` below `weeksPerYear`,
a dot centred at
`(startX + week * cellSize + dotDiameter / 2,
  startY + year * cellSize + dotDiameter / 2)`
coloured by the linear index `year * weeksPerYear + week`. -/
def drawGrid (totalYears : ℕ) (weeksLived : Option ℤ) (theme : ThemeSpec) :
    List Dot :=
  (List.range totalYears).flatMap fun (year : ℕ) =>
    (List.range weeksPerYear).map fun (week : ℕ) =>
      { x := startX + (week : ℚ) * cellSize + dotDiameter / 2,
        y := startY (totalYears : ℚ) + (year : ℚ) * cellSize + dotDiameter / 2,
        color := dotColor theme (year * weeksPerYear + week : ℕ) weeksLived }

/-- `totalWeeks = totalYears * weeksPerYear` (lines 119-121), where
`totalYears` is the `lifeExpectancy` argument as a number.  `ToNumber` of
the values that can reach this multiplication: a number is itself, `null`
and `false` convert to `0`, `true` to `1`, and the empty string to `0`.
A truthy non-number never passes `validateInput`, so no nonempty string
(whose `ToNumber` may be any number or `NaN`) reaches a numeric context in
the handler; such strings are mapped to `0` here and no theorem depends on
them. -/
def jsToNumber : JsPrim → ℚ
  | .num q => q
  | .null => 0
  | .bool b => if b then 1 else 0
  | .str _ => 0

/-- Lines 119-121: `totalWeeks = totalYears * weeksPerYear` for the
`lifeExpectancy` value the handler passed. -/
def totalWeeksOf (lifeExpectancy : JsPrim) : ℚ :=
  jsToNumber lifeExpectancy * (weeksPerYear : ℚ)

/-! ## Helper lemmas -/

/-- Cancelling the common day-millisecond factor in the week division. -/
theorem fdiv_day_week (d : ℤ) : Int.fdiv (d * msPerDay) msPerWeek = Int.fdiv d 7 := by
  have hd : (0 : ℤ) ≤ msPerDay := by norm_num [msPerDay]
  have hw : (0 : ℤ) ≤ msPerWeek := by norm_num [msPerWeek, msPerDay]
  rw [Int.fdiv_eq_ediv _ hw, Int.fdiv_eq_ediv _ (by norm_num : (0:ℤ) ≤ 7)]
  rw [show msPerWeek = msPerDay * 7 from by norm_num [msPerWeek, msPerDay],
    mul_comm d msPerDay]
  exact Int.mul_ediv_mul_of_pos _ _ (by norm_num [msPerDay])

/-- `cellStateOf` marks a cell as the one being lived exactly at the
elapsed index. -/
theorem cellStateOf_curNow_iff (i : ℕ) (e : ℤ) :
    cellStateOf i e = .curNow ↔ (i : ℤ) = e := by
  unfold cellStateOf
  split_ifs with h1 h2 <;> simp [h1]

/-- When the elapsed count is a valid index, exactly the cell at that index
is in the `curNow` state. -/
theorem filter_curNow_of_lt (t : ℕ) (e : ℤ) (h0 : 0 ≤ e)
    (h : e < (weeksPerYear * t : ℕ)) :
    (Finset.range (weeksPerYear * t)).filter (fun i => cellStateOf i e = .curNow)
      = {e.toNat} := by
  ext i
  simp only [Finset.mem_filter, Finset.mem_range, cellStateOf_curNow_iff,
    Finset.mem_singleton]
  omega

/-- When the elapsed count is at least the cell count, no cell is in the
`curNow` state. -/
theorem filter_curNow_of_ge (t : ℕ) (e : ℤ)
    (h : ((weeksPerYear * t : ℕ) : ℤ) ≤ e) :
    (Finset.range (weeksPerYear * t)).filter (fun i => cellStateOf i e = .curNow)
      = ∅ := by
  ext i
  simp only [Finset.mem_filter, Finset.mem_range, cellStateOf_curNow_iff,
    Finset.not_mem_empty, iff_false, not_and]
  omega

/-- A flat map of constant-width rows over `List.range`, re-indexed
linearly. -/
theorem range_flatMap_map {α : Type} (t n : ℕ) (f : ℕ → ℕ → α) :
    (List.range t).flatMap (fun r => (List.range n).map (f r))
      = (List.range (t * n)).map (fun i => f (i / n) (i % n)) := by
  induction t with
  | zero => simp
  | succ t ih =>
    rw [List.range_succ, List.flatMap_append, ih, List.flatMap_cons,
      List.flatMap_nil, List.append_nil, Nat.succ_mul, List.range_add,
      List.map_append, List.map_map]
    congr 1
    refine List.map_congr_left fun j hj => ?_
    rw [List.mem_range] at hj
    have hn : 0 < n := by omega
    have h1 : (t * n + j) / n = t := by
      rw [mul_comm t n, Nat.mul_add_div hn, Nat.div_eq_of_lt hj, Nat.add_zero]
    have h2 : (t * n + j) % n = j := by
      rw [mul_comm t n, Nat.mul_add_mod, Nat.mod_eq_of_lt hj]
    simp only [Function.comp_apply]
    rw [h1, h2]

/-! ## Claim theorems -/

/-- C6 counterexample: `"constructor"` is neither `"dark"` nor `"light"`,
yet resolving it does not yield the dark palette: the property read finds
the truthy `Object.prototype.constructor`, so `resolveTheme "constructor"`
differs from `resolveTheme "dark"`. -/
theorem resolveTheme_constructor_not_dark :
    "constructor" ≠ "dark" ∧ "constructor" ≠ "light" ∧
    resolveTheme "constructor" ≠ ThemeLookup.found darkTheme ∧
    resolveTheme "constructor" ≠ resolveTheme "dark" := by decide

/-- C6 (amended): theme resolution is an exact-match lookup over the two
built-in palettes for every name that is not an inherited
`Object.prototype` property name: any such name other than `"dark"` and
`"light"` (including the empty string, and an absent name which the handler
replaces by `"dark"`) resolves to the dark palette, the same result as
resolving `"dark"`. -/
theorem resolveTheme_unknown_is_dark (name : String)
    (hp : name ∉ objectProtoProps) (hd : name ≠ "dark") (hl : name ≠ "light") :
    resolveTheme name = ThemeLookup.found darkTheme ∧
    resolveTheme name = resolveTheme "dark" := by
  have h : themesGet name = .absent := by
    unfold themesGet
    rw [if_neg hd, if_neg hl, if_neg hp]
  refine ⟨?_, ?_⟩
  · unfold resolveTheme
    rw [h]
  · unfold resolveTheme
    rw [h]
    rfl

/-- Witness for `resolveTheme_unknown_is_dark` at the name `"purple"`. -/
theorem resolveTheme_unknown_is_dark_witness :
    "purple" ∉ objectProtoProps ∧ "purple" ≠ "dark" ∧ "purple" ≠ "light" ∧
    (resolveTheme "purple" = ThemeLookup.found darkTheme ∧
      resolveTheme "purple" = resolveTheme "dark") :=
  ⟨by decide, by decide, by decide,
    resolveTheme_unknown_is_dark "purple" (by decide) (by decide) (by decide)⟩

/-- C7: the layout centres the grid in the available rectangle: the start
coordinates equal the margin offset plus half the difference between the
available extent and the grid extent, and consequently the grid midpoint
coincides exactly (hence within 1px) with the centre of the available
rectangle, horizontally and, for every row count, vertically. -/
theorem grid_centering :
    startX = marginLeft + yearLabelWidth + (availableWidth - gridWidth) / 2 ∧
    (∀ t : ℚ, startY t
      = safeAreaTop + headerHeight + (availableHeight - gridHeight t) / 2) ∧
    startX + gridWidth / 2 = availableRectCenterX ∧
    ∀ t : ℚ, startY t + gridHeight t / 2 = availableRectCenterY := by
  refine ⟨rfl, fun t => rfl, ?_, fun t => ?_⟩
  · norm_num [startX, availableRectCenterX, availableWidth, marginLeft,
      yearLabelWidth, CANVAS_WIDTH, marginRight, gridWidth, cellSize,
      dotDiameter, spacing, weeksPerYear]
  · simp only [startY, availableRectCenterY, availableHeight, gridHeight,
      safeAreaTop, headerHeight, CANVAS_HEIGHT, marginBottom]
    ring

/-- C5 counterexample: for birth date 1990-05-15 and reference date
2024-05-15 the calculator returns 1774 weeks, which is not within 1 of
34 * 52 = 1768. -/
theorem scenario1_not_within_one :
    calculateWeeksLived "1990-05-15" "2024-05-15" = some 1774 ∧
    ¬ ((1774 : ℤ) - 34 * 52 ≤ 1 ∧ 34 * 52 - (1774 : ℤ) ≤ 1) := by
  exact ⟨by decide, by decide⟩

/-- C5 (amended): for birth date 1990-05-15, reference date 2024-05-15 and
life expectancy 80 the calculator returns `totalUnits = 4160` and
`elapsedUnits = 1774` exactly (12419 days have elapsed, and
`floor (12419 / 7) = 1774`; 34 calendar years exceed 34 * 52 weeks by
about six weeks). -/
theorem scenario1_exact :
    totalWeeksOf (.num 80) = 4160 ∧
    calculateWeeksLived "1990-05-15" "2024-05-15" = some 1774 ∧
    jsParseDate "2024-05-15" = some 19858 ∧ jsParseDate "1990-05-15" = some 7439 ∧
    (19858 : ℤ) - 7439 = 12419 := by
  refine ⟨by norm_num [totalWeeksOf, jsToNumber, weeksPerYear], by decide,
    by decide, by decide, by decide⟩

/-- C2: for every pair of parseable dates and every life expectancy, the
calculator returns the floor of the day difference divided by 7, and the
total count is `lifeExpectancy * 52`. -/
theorem calculateWeeksLived_floor_days (bs cs : String) (b c : ℤ)
    (hb : jsParseDate bs = some b) (hc : jsParseDate cs = some c)
    (_hbc : b ≤ c) :
    calculateWeeksLived bs cs = some (Int.fdiv (c - b) 7) ∧
    ∀ L : ℚ, totalWeeksOf (.num L) = L * 52 := by
  refine ⟨?_, fun L => by norm_num [totalWeeksOf, jsToNumber, weeksPerYear]⟩
  unfold calculateWeeksLived
  rw [hb, hc]
  show some ((c * msPerDay - b * msPerDay).fdiv msPerWeek) = _
  rw [show c * msPerDay - b * msPerDay = (c - b) * msPerDay from by ring,
    fdiv_day_week]

/-- Witness for `calculateWeeksLived_floor_days` at the scenario dates. -/
theorem calculateWeeksLived_floor_days_witness :
    jsParseDate "1990-05-15" = some 7439 ∧
    jsParseDate "2024-05-15" = some 19858 ∧ (7439 : ℤ) ≤ 19858 ∧
    (calculateWeeksLived "1990-05-15" "2024-05-15"
        = some (Int.fdiv (19858 - 7439) 7) ∧
      ∀ L : ℚ, totalWeeksOf (.num L) = L * 52) :=
  ⟨by decide, by decide, by decide,
    calculateWeeksLived_floor_days "1990-05-15" "2024-05-15" 7439 19858
      (by decide) (by decide) (by decide)⟩

/-- C1: for every grid index the renderer's state is `lived` iff the index
is below the elapsed count, `curNow` iff it equals it, `future` otherwise;
the assigned colour is the palette colour of that state; and whenever
`0 ≤ elapsedUnits < totalUnits` exactly the cell at the elapsed index is in
the `curNow` state. -/
theorem cell_classification :
    (∀ (e : ℤ) (i : ℕ),
      (cellStateOf i e = .lived ↔ (i : ℤ) < e) ∧
      (cellStateOf i e = .curNow ↔ (i : ℤ) = e) ∧
      (cellStateOf i e = .future ↔ e < (i : ℤ)) ∧
      ∀ th, dotColor th i (some e) = stateColor th (cellStateOf i e)) ∧
    ∀ (t : ℕ) (e : ℤ), 0 ≤ e → e < (weeksPerYear * t : ℕ) →
      (Finset.range (weeksPerYear * t)).filter
        (fun i => cellStateOf i e = .curNow) = {e.toNat} := by
  refine ⟨fun e i => ⟨?_, cellStateOf_curNow_iff i e, ?_, fun th => ?_⟩,
    filter_curNow_of_lt⟩
  · unfold cellStateOf
    split_ifs with h1 h2 <;> simp [h1, *]
  · unfold cellStateOf
    split_ifs with h1 h2 <;> simp [h1, *] <;> omega
  · simp only [dotColor, cellStateOf]
    split_ifs <;> rfl

/-- Witness for `cell_classification`: with 52 cells and 3 elapsed weeks,
cell 3 is the unique `curNow` cell. -/
theorem cell_classification_witness :
    (0 : ℤ) ≤ 3 ∧ (3 : ℤ) < (weeksPerYear * 1 : ℕ) ∧
    (Finset.range (weeksPerYear * 1)).filter
      (fun i => cellStateOf i 3 = .curNow) = {(3 : ℤ).toNat} :=
  ⟨by decide, by decide, cell_classification.2 1 3 (by decide) (by decide)⟩

/-- C8: the dot emitted at position `i` of the drawing order is centred at
`(startX + (i % 52) * cellSize + dotDiameter / 2,
  startY + (i / 52) * cellSize + dotDiameter / 2)` and coloured by linear
index `i`, with `cellSize = dotDiameter + spacing`. -/
theorem dot_placement (t : ℕ) (e : Option ℤ) (th : ThemeSpec) (i : ℕ)
    (h : i < weeksPerYear * t) :
    (drawGrid t e th)[i]? = some
      { x := startX + ((i % weeksPerYear : ℕ) : ℚ) * cellSize + dotDiameter / 2,
        y := startY (t : ℚ) + ((i / weeksPerYear : ℕ) : ℚ) * cellSize
          + dotDiameter / 2,
        color := dotColor th i e } ∧
    cellSize = dotDiameter + spacing := by
  refine ⟨?_, rfl⟩
  have hi : i / weeksPerYear * weeksPerYear + i % weeksPerYear = i := by
    rw [mul_comm]
    exact Nat.div_add_mod i weeksPerYear
  unfold drawGrid
  rw [range_flatMap_map, List.getElem?_map,
    List.getElem?_range (Nat.mul_comm weeksPerYear t ▸ h)]
  simp only [Option.map_some']
  rw [hi]

/-- Witness for `dot_placement` at the sixth dot of a one-year grid. -/
theorem dot_placement_witness :
    (5 : ℕ) < weeksPerYear * 1 ∧
    ((drawGrid 1 (some 0) darkTheme)[5]? = some
      { x := startX + ((5 % weeksPerYear : ℕ) : ℚ) * cellSize + dotDiameter / 2,
        y := startY ((1 : ℕ) : ℚ) + ((5 / weeksPerYear : ℕ) : ℚ) * cellSize
          + dotDiameter / 2,
        color := dotColor darkTheme 5 (some 0) } ∧
      cellSize = dotDiameter + spacing) :=
  ⟨by decide, dot_placement 1 (some 0) darkTheme 5 (by decide)⟩

/-- The birth-date error group is empty exactly when a nonempty, parseable
ISO date string was supplied. -/
theorem birthDateErrors_nil_iff (body : RequestBody) :
    birthDateErrors body = [] ↔
      ∃ s d, body.birthDate = some s ∧ s ≠ "" ∧ jsParseDate s = some d := by
  unfold birthDateErrors
  cases hbd : body.birthDate with
  | none => simp
  | some s =>
    dsimp only
    split_ifs with h1 h2 h3
    · simp [h1]
    · have hjn : jsParseDate s = none := by
        unfold jsParseDate
        rw [Option.isNone_iff_eq_none.mp h2]
      simp [hjn, h1]
    · simp [Option.isNone_iff_eq_none.mp h3, h1]
    · cases hjs : jsParseDate s with
      | none => rw [hjs] at h3; simp at h3
      | some d => exact iff_of_true rfl ⟨s, d, rfl, h1, hjs⟩

/-- The life-expectancy error group is empty exactly when the value after
falsy-defaulting to 80 is a number in `[1, 150]`. -/
theorem lifeExpectancyErrors_nil_iff (body : RequestBody) :
    lifeExpectancyErrors body = [] ↔
      ∃ q : ℚ, jsOr body.lifeExpectancy (.num 80) = .num q ∧ 1 ≤ q ∧ q ≤ 150 := by
  unfold lifeExpectancyErrors
  cases hv : jsOr body.lifeExpectancy (.num 80) with
  | num q =>
    dsimp only
    split_ifs with h1
    · refine iff_of_false (by simp) ?_
      rintro ⟨q', hq', hge, hle⟩
      obtain rfl : q = q' := by injection hq'
      rcases h1 with h | h <;> linarith
    · push_neg at h1
      exact iff_of_true rfl ⟨q, rfl, h1.1, h1.2⟩
  | str s =>
    refine iff_of_false (by simp) ?_
    rintro ⟨q', hq', -, -⟩
    cases hq'
  | bool b =>
    refine iff_of_false (by simp) ?_
    rintro ⟨q', hq', -, -⟩
    cases hq'
  | null =>
    refine iff_of_false (by simp) ?_
    rintro ⟨q', hq', -, -⟩
    cases hq'

/-- The theme error group is empty exactly when any supplied nonempty theme
name is found by the property read. -/
theorem themeErrors_nil_iff (body : RequestBody) :
    themeErrors body = [] ↔
      ∀ s, body.theme = some s → s ≠ "" → themesGet s ≠ .absent := by
  unfold themeErrors
  cases ht : body.theme with
  | none => simp
  | some s =>
    dsimp only
    split_ifs with h1
    · refine iff_of_false (by simp) ?_
      intro hall
      exact hall s rfl h1.1 h1.2
    · refine iff_of_true rfl ?_
      intro s' hs' hne
      obtain rfl : s = s' := by injection hs'
      rw [not_and_or] at h1
      rcases h1 with h | h
      · exact absurd hne h
      · exact h

/-- The future-date error group is empty exactly when any supplied nonempty
parseable birth date lies at or before the current instant. -/
theorem futureErrors_nil_iff (body : RequestBody) (nowMs : ℤ) :
    futureErrors body nowMs = [] ↔
      ∀ s d, body.birthDate = some s → s ≠ "" → jsParseDate s = some d →
        d * msPerDay ≤ nowMs := by
  unfold futureErrors
  cases hbd : body.birthDate with
  | none => simp
  | some s =>
    dsimp only
    split_ifs with h1
    · cases hp : jsParseDate s with
      | none =>
        refine iff_of_true rfl ?_
        intro s' d' hs' _ hp'
        obtain rfl : s = s' := by injection hs'
        rw [hp] at hp'
        cases hp'
      | some d =>
        dsimp only
        split_ifs with h2
        · refine iff_of_false (by simp) ?_
          intro hall
          have := hall s d rfl h1 hp
          omega
        · refine iff_of_true rfl ?_
          intro s' d' hs' _ hp'
          obtain rfl : s = s' := by injection hs'
          rw [hp] at hp'
          obtain rfl : d = d' := by injection hp'
          omega
    · refine iff_of_true rfl ?_
      intro s' d' hs' hne _
      obtain rfl : s = s' := by injection hs'
      exact absurd hne h1

/-- C4 counterexample: a body with `lifeExpectancy = 0` passes validation
(the falsy `0` is replaced by the default 80 before the range check), and
so does a body whose theme is the inherited property name
`"constructor"`. -/
theorem validation_accepts_zero_and_constructor :
    validateInput
      { birthDate := some "1990-05-15", lifeExpectancy := some (.num 0),
        theme := some "dark", referenceDate := none, currentDate := none }
      1704067200000 = [] ∧
    validateInput
      { birthDate := some "1990-05-15", lifeExpectancy := some (.num 80),
        theme := some "constructor", referenceDate := none, currentDate := none }
      1704067200000 = [] := by
  exact ⟨by decide, by decide⟩

/-- C4 (amended): validation succeeds exactly when the birth date is a
supplied, nonempty, parseable `YYYY-MM-DD` date not after the current
instant, the life expectancy — after falsy values (absent, `0`, `""`,
`false`, `null`) are replaced by the default 80 — is a number in
`[1, 150]`, and any supplied nonempty theme name is either a palette key
(`"dark"`/`"light"`) or an inherited `Object.prototype` property name; in
particular `lifeExpectancy = 0` is accepted rather than rejected.  On any
failure the handler returns the error list and produces no image. -/
theorem validateInput_nil_iff :
    (∀ (body : RequestBody) (nowMs : ℤ), validateInput body nowMs = [] ↔
      ((∃ s d, body.birthDate = some s ∧ s ≠ "" ∧ jsParseDate s = some d ∧
          d * msPerDay ≤ nowMs) ∧
       (∃ q : ℚ, jsOr body.lifeExpectancy (.num 80) = .num q ∧ 1 ≤ q ∧ q ≤ 150) ∧
       ∀ s, body.theme = some s → s ≠ "" → themesGet s ≠ .absent)) ∧
    ∀ (body : RequestBody) (nowMs : ℤ), validateInput body nowMs ≠ [] →
      handleGenerateCalendar body nowMs = .error (validateInput body nowMs) := by
  constructor
  · intro body nowMs
    unfold validateInput
    simp only [List.append_eq_nil, birthDateErrors_nil_iff,
      lifeExpectancyErrors_nil_iff, themeErrors_nil_iff, futureErrors_nil_iff]
    constructor
    · rintro ⟨⟨⟨⟨s, d, hs, hne, hd⟩, hq⟩, hth⟩, hfut⟩
      exact ⟨⟨s, d, hs, hne, hd, hfut s d hs hne hd⟩, hq, hth⟩
    · rintro ⟨⟨s, d, hs, hne, hd, hle⟩, hq, hth⟩
      refine ⟨⟨⟨⟨s, d, hs, hne, hd⟩, hq⟩, hth⟩, ?_⟩
      intro s' d' hs' _ hd'
      rw [hs] at hs'
      obtain rfl : s = s' := by injection hs'
      rw [hd] at hd'
      obtain rfl : d = d' := by injection hd'
      exact hle
  · intro body nowMs h
    unfold handleGenerateCalendar
    simp only [if_neg h]

/-- Witness for `validateInput_nil_iff`: a body with an empty birth date is
rejected and the handler returns its error list. -/
theorem validateInput_nil_iff_witness :
    validateInput
      { birthDate := none, lifeExpectancy := none, theme := none,
        referenceDate := none, currentDate := none } 0 ≠ [] ∧
    handleGenerateCalendar
      { birthDate := none, lifeExpectancy := none, theme := none,
        referenceDate := none, currentDate := none } 0
      = .error (validateInput
        { birthDate := none, lifeExpectancy := none, theme := none,
          referenceDate := none, currentDate := none } 0) :=
  ⟨by decide, validateInput_nil_iff.2 _ 0 (by decide)⟩

/-- C3 counterexample: a validated request (birth date 1900-01-01, life
expectancy 1, at instant 2024-01-01T00:00Z) renders with
`elapsedUnits = 6470` and `totalUnits = 52`: the computed week count
exceeds `totalUnits - 1` and no clamping takes place anywhere in the
pipeline. -/
theorem no_clamp_counterexample :
    validateInput
      { birthDate := some "1900-01-01", lifeExpectancy := some (.num 1),
        theme := some "dark", referenceDate := none, currentDate := none }
      1704067200000 = [] ∧
    calculateWeeksLived "1900-01-01" (isoDateOfMs 1704067200000) = some 6470 ∧
    totalWeeksOf (.num 1) = 52 ∧
    ¬ (6470 : ℤ) ≤ 52 - 1 := by
  exact ⟨by decide, by decide,
    by norm_num [totalWeeksOf, jsToNumber, weeksPerYear], by decide⟩

/-- C3 (amended): for every input accepted by validation the elapsed count
used for rendering is nonnegative; the calculator applies no upper clamp,
so the count may exceed `totalUnits - 1`; when it is a valid index exactly
one cell is marked as the one being lived, and when it is at least the cell
count zero cells are. -/
theorem elapsed_bounds_no_clamp (body : RequestBody) (nowMs : ℤ) (bs : String)
    (db w : ℤ) (t : ℕ)
    (hacc : validateInput body nowMs = [])
    (hbs : body.birthDate = some bs)
    (hdb : jsParseDate bs = some db)
    (hcd : jsParseDate (isoDateOfMs nowMs) = some (Int.fdiv nowMs msPerDay))
    (hw : calculateWeeksLived bs (isoDateOfMs nowMs) = some w) :
    0 ≤ w ∧
    (w < (weeksPerYear * t : ℕ) →
      ((Finset.range (weeksPerYear * t)).filter
        (fun i => cellStateOf i w = .curNow)).card = 1) ∧
    ((weeksPerYear * t : ℕ) ≤ w →
      ((Finset.range (weeksPerYear * t)).filter
        (fun i => cellStateOf i w = .curNow)).card = 0) := by
  have hsplit := hacc
  unfold validateInput at hsplit
  rw [List.append_eq_nil, List.append_eq_nil, List.append_eq_nil] at hsplit
  obtain ⟨⟨⟨hb, -⟩, -⟩, hf⟩ := hsplit
  obtain ⟨s, d, hs, hne, -⟩ := (birthDateErrors_nil_iff body).mp hb
  rw [hbs] at hs
  obtain rfl : bs = s := by injection hs
  have hle : db * msPerDay ≤ nowMs :=
    (futureErrors_nil_iff body nowMs).mp hf bs db hbs hne hdb
  unfold calculateWeeksLived at hw
  rw [hdb, hcd] at hw
  have hw' : Int.fdiv (Int.fdiv nowMs msPerDay * msPerDay - db * msPerDay)
      msPerWeek = w := by injection hw
  have hdble : db ≤ Int.fdiv nowMs msPerDay := by
    rw [Int.fdiv_eq_ediv _ (by norm_num [msPerDay] : (0:ℤ) ≤ msPerDay)]
    rw [Int.le_ediv_iff_mul_le (by norm_num [msPerDay])]
    exact hle
  have h0 : 0 ≤ w := by
    rw [← hw', show Int.fdiv nowMs msPerDay * msPerDay - db * msPerDay
      = (Int.fdiv nowMs msPerDay - db) * msPerDay from by ring, fdiv_day_week]
    exact Int.fdiv_nonneg (by omega) (by norm_num)
  refine ⟨h0, fun hlt => ?_, fun hge => ?_⟩
  · rw [filter_curNow_of_lt t w h0 hlt, Finset.card_singleton]
  · rw [filter_curNow_of_ge t w hge, Finset.card_empty]

/-- Witness for `elapsed_bounds_no_clamp` at the counterexample input: the
elapsed count 6470 is nonnegative and, with 52 cells, at least the cell
count, so zero cells are marked. -/
theorem elapsed_bounds_no_clamp_witness :
    validateInput
      { birthDate := some "1900-01-01", lifeExpectancy := some (.num 1),
        theme := some "dark", referenceDate := none, currentDate := none }
      1704067200000 = [] ∧
    jsParseDate "1900-01-01" = some (-25567) ∧
    jsParseDate (isoDateOfMs 1704067200000)
      = some (Int.fdiv 1704067200000 msPerDay) ∧
    calculateWeeksLived "1900-01-01" (isoDateOfMs 1704067200000)
      = some 6470 ∧
    ((0 : ℤ) ≤ 6470 ∧
      ((6470 : ℤ) < (weeksPerYear * 1 : ℕ) →
        ((Finset.range (weeksPerYear * 1)).filter
          (fun i => cellStateOf i 6470 = .curNow)).card = 1) ∧
      ((weeksPerYear * 1 : ℕ) ≤ (6470 : ℤ) →
        ((Finset.range (weeksPerYear * 1)).filter
          (fun i => cellStateOf i 6470 = .curNow)).card = 0)) :=
  ⟨by decide, by decide, by decide, by decide,
    elapsed_bounds_no_clamp
      { birthDate := some "1900-01-01", lifeExpectancy := some (.num 1),
        theme := some "dark", referenceDate := none, currentDate := none }
      1704067200000 "1900-01-01" (-25567) 6470 1
      (by decide) (by decide) (by decide) (by decide) (by decide)⟩

/-- C9 counterexample: a body supplying `lifeExpectancy = 0` passes
validation (the falsy value is defaulted to 80 there), but the handler's
destructuring default applies only to an absent field, so it passes `0`
through to the renderer, whose total is `0 * 52 = 0`, not 4160. -/
theorem handler_passes_zero_lifeExpectancy :
    validateInput
      { birthDate := some "1990-05-15", lifeExpectancy := some (.num 0),
        theme := none, referenceDate := none, currentDate := none }
      1704067200000 = [] ∧
    handleGenerateCalendar
      { birthDate := some "1990-05-15", lifeExpectancy := some (.num 0),
        theme := none, referenceDate := none, currentDate := none }
      1704067200000
      = .ok { birthDate := some "1990-05-15", currentDate := "2024-01-01",
              lifeExpectancy := .num 0, themeName := "dark" } ∧
    totalWeeksOf (.num 0) = 0 ∧ totalWeeksOf (.num 0) ≠ 4160 := by
  refine ⟨by decide, rfl, ?_, ?_⟩ <;>
    norm_num [totalWeeksOf, jsToNumber, weeksPerYear]

/-- C9 (amended): when `lifeExpectancy` is omitted, validation uses the
default 80 with no error and the handler renders with 80
(`totalUnits = 4160`); when a falsy value such as `0` is supplied,
validation also reports no error for the field, but the handler passes the
supplied value through unchanged, so `0` renders with `totalUnits = 0`. -/
theorem lifeExpectancy_defaulting (body : RequestBody) (nowMs : ℤ)
    (r : RenderCall) (h : handleGenerateCalendar body nowMs = .ok r) :
    (body.lifeExpectancy = none →
      r.lifeExpectancy = .num 80 ∧ totalWeeksOf r.lifeExpectancy = 4160) ∧
    (body.lifeExpectancy = some (.num 0) →
      lifeExpectancyErrors body = [] ∧ r.lifeExpectancy = .num 0 ∧
        totalWeeksOf r.lifeExpectancy = 0) := by
  unfold handleGenerateCalendar at h
  split_ifs at h with hv
  obtain rfl :
      ({ birthDate := body.birthDate,
         currentDate := isoDateOfMs nowMs,
         lifeExpectancy := body.lifeExpectancy.getD (.num 80),
         themeName := body.theme.getD "dark" } : RenderCall) = r := by
    injection h
  constructor
  · intro hnone
    rw [hnone]
    exact ⟨rfl, by norm_num [totalWeeksOf, jsToNumber, weeksPerYear]⟩
  · intro h0
    rw [h0]
    refine ⟨?_, rfl, by norm_num [totalWeeksOf, jsToNumber, weeksPerYear]⟩
    unfold lifeExpectancyErrors
    rw [show jsOr body.lifeExpectancy (.num 80) = .num 80 from by rw [h0]; rfl]
    norm_num

/-- Witness for `lifeExpectancy_defaulting` with the field omitted. -/
theorem lifeExpectancy_defaulting_witness :
    handleGenerateCalendar
      { birthDate := some "1990-05-15", lifeExpectancy := none,
        theme := none, referenceDate := none, currentDate := none }
      1704067200000
      = .ok { birthDate := some "1990-05-15", currentDate := "2024-01-01",
              lifeExpectancy := .num 80, themeName := "dark" } ∧
    (({ birthDate := some "1990-05-15", currentDate := "2024-01-01",
        lifeExpectancy := .num 80, themeName := "dark" } : RenderCall).lifeExpectancy
        = .num 80 ∧
      totalWeeksOf
        ({ birthDate := some "1990-05-15",
           currentDate := "2024-01-01", lifeExpectancy := .num 80,
           themeName := "dark" } : RenderCall).lifeExpectancy = 4160) :=
  ⟨rfl,
    (lifeExpectancy_defaulting
      { birthDate := some "1990-05-15", lifeExpectancy := none,
        theme := none, referenceDate := none, currentDate := none }
      1704067200000
      { birthDate := some "1990-05-15", currentDate := "2024-01-01",
        lifeExpectancy := .num 80, themeName := "dark" }
      rfl).1 rfl⟩

/-- C10: the reference date of every render is the server's current date,
formatted `YYYY-MM-DD` from the UTC instant: two bodies that agree on the
fields the server reads (`birthDate`, `lifeExpectancy`, `theme`) and differ
only in `referenceDate` or `currentDate` fields produce identical handler
results, and an accepted body is always rendered with
`currentDate = isoDateOfMs nowMs`. -/
theorem reference_date_noninterference (b1 b2 : RequestBody) (nowMs : ℤ)
    (hb : b1.birthDate = b2.birthDate)
    (hl : b1.lifeExpectancy = b2.lifeExpectancy)
    (ht : b1.theme = b2.theme) :
    handleGenerateCalendar b1 nowMs = handleGenerateCalendar b2 nowMs ∧
    (validateInput b1 nowMs = [] →
      handleGenerateCalendar b1 nowMs = .ok
        { birthDate := b1.birthDate, currentDate := isoDateOfMs nowMs,
          lifeExpectancy := b1.lifeExpectancy.getD (.num 80),
          themeName := b1.theme.getD "dark" }) := by
  have hv : validateInput b1 nowMs = validateInput b2 nowMs := by
    unfold validateInput birthDateErrors lifeExpectancyErrors themeErrors
      futureErrors
    rw [hb, hl, ht]
  constructor
  · unfold handleGenerateCalendar
    rw [hv, hb, hl, ht]
  · intro hok
    unfold handleGenerateCalendar
    rw [if_pos hok]

/-- Witness for `reference_date_noninterference`: two bodies differing only
in their (ignored) `referenceDate` and `currentDate` fields. -/
theorem reference_date_noninterference_witness :
    handleGenerateCalendar
      { birthDate := some "1990-05-15", lifeExpectancy := some (.num 80),
        theme := some "light", referenceDate := some "1999-01-01",
        currentDate := some "1999-01-01" } 1704067200000
      = handleGenerateCalendar
        { birthDate := some "1990-05-15", lifeExpectancy := some (.num 80),
          theme := some "light", referenceDate := none,
          currentDate := none } 1704067200000 ∧
    (validateInput
        { birthDate := some "1990-05-15", lifeExpectancy := some (.num 80),
          theme := some "light", referenceDate := some "1999-01-01",
          currentDate := some "1999-01-01" } 1704067200000 = [] →
      handleGenerateCalendar
        { birthDate := some "1990-05-15", lifeExpectancy := some (.num 80),
          theme := some "light", referenceDate := some "1999-01-01",
          currentDate := some "1999-01-01" } 1704067200000
        = .ok { birthDate := some "1990-05-15",
                currentDate := isoDateOfMs 1704067200000,
                lifeExpectancy := some (JsPrim.num 80) |>.getD (.num 80),
                themeName := some "light" |>.getD "dark" }) :=
  reference_date_noninterference
    { birthDate := some "1990-05-15", lifeExpectancy := some (.num 80),
      theme := some "light", referenceDate := some "1999-01-01",
      currentDate := some "1999-01-01" }
    { birthDate := some "1990-05-15", lifeExpectancy := some (.num 80),
      theme := some "light", referenceDate := none, currentDate := none }
    1704067200000 rfl rfl rfl

end YearCal
